import Mathlib

/-!
Shallow embedding of the semantic core of the `lox-base` tree-walking Lox
interpreter (`src/lox/ast.py`, `src/lox/runtime.py`), together with theorems
about its documented behaviour.

Conventions of the embedding:
* Lox numbers are Python floats.  They are modelled by `LoxSpec.Num`:
  either NaN or an exact (rational) finite value.  IEEE-754 rounding of
  arithmetic on finite doubles is not modelled (arithmetic on the model is
  exact), but the IEEE comparison behaviour of NaN — the part the program's
  dispatch logic depends on — is.
* Python exceptions become an explicit error type `LoxErr`; Python `None`
  returned from statement evaluation is dropped (every caller in the source
  ignores it); the `LoxReturn` control-flow exception becomes the `.ret`
  constructor of the evaluation outcome.
* Mutable Python objects reached through references (`Ctx` environment
  frames, `LoxInstance` field maps) live in an explicit store (`State`)
  and values hold indices into it.
* The module `src/lox/ctx.py` (class `Ctx`) is not part of the sources made
  available; its operations are modelled from §4.2 of the specification,
  with a doc comment marking each such definition.
-/

namespace LoxSpec

/-- Model of a Python float: NaN or a finite value (held exactly as a
rational).  Infinities are not needed by any modelled code path. -/
inductive Num where
  | nan : Num
  | fin (q : ℚ) : Num
deriving DecidableEq

/-- Python `==` on floats (IEEE equality): NaN compares unequal to
everything, including itself; finite values compare by value. -/
def Num.ieeeEq : Num → Num → Bool
  | .nan, _ => false
  | _, .nan => false
  | .fin a, .fin b => a == b

/-- Python `+` on floats (exact on the finite fragment; NaN propagates). -/
def Num.add : Num → Num → Num
  | .fin a, .fin b => .fin (a + b)
  | _, _ => .nan

/-- Python `-` on floats. -/
def Num.sub : Num → Num → Num
  | .fin a, .fin b => .fin (a - b)
  | _, _ => .nan

/-- Python `*` on floats. -/
def Num.mul : Num → Num → Num
  | .fin a, .fin b => .fin (a * b)
  | _, _ => .nan

/-- Python `/` on floats.  `lox_div` only divides after checking the divisor
is not `== 0`, so the `fin _ / fin 0` case is unreachable from the modelled
code; it is mapped to NaN here. -/
def Num.div : Num → Num → Num
  | .fin a, .fin b => if b = 0 then .nan else .fin (a / b)
  | _, _ => .nan

/-- Python `-x` on floats. -/
def Num.neg : Num → Num
  | .fin a => .fin (-a)
  | .nan => .nan

/-- Python `>` on floats (false whenever NaN is involved). -/
def Num.gt : Num → Num → Bool
  | .fin a, .fin b => b < a
  | _, _ => false

/-- Python `>=` on floats. -/
def Num.ge : Num → Num → Bool
  | .fin a, .fin b => b ≤ a
  | _, _ => false

/-- Python `<` on floats. -/
def Num.lt : Num → Num → Bool
  | .fin a, .fin b => a < b
  | _, _ => false

/-- Python `<=` on floats. -/
def Num.le : Num → Num → Bool
  | .fin a, .fin b => a ≤ b
  | _, _ => false

/-- The type annotation `Value = bool | str | float | None` of `ast.py`:
the values a `Literal` node can carry. -/
inductive Lit where
  | nil : Lit
  | bool (b : Bool) : Lit
  | num (n : Num) : Lit
  | str (s : String) : Lit
deriving DecidableEq

mutual
/-- Expression nodes of `src/lox/ast.py`.  `BinOp` stores its operator as a
symbolic string, exactly as the source dataclass does. -/
inductive Expr where
  | binOp (left right : Expr) (op : String) : Expr
  | var (name : String) : Expr
  | literal (value : Lit) : Expr
  | and (left right : Expr) : Expr
  | or (left right : Expr) : Expr
  | unaryOp (op : String) (value : Expr) : Expr
  | call (func : Expr) (args : List Expr) : Expr
  | getattr (obj : Expr) (attr : String) : Expr
  | setattr (obj : Expr) (attr : String) (value : Expr) : Expr
  | thisE : Expr
  | superE (attr : String) : Expr
  | assign (name : String) (value : Expr) : Expr

/-- Statement nodes of `src/lox/ast.py`.  `exprS` is an expression in
statement position (in the source, expressions and statements share the
`eval` interface, so an `Expr` may appear in a statement list).
`function`'s body is a single `Stmt` (normally a `block`), as in the Python
dataclass; `classS`'s method list holds `Stmt`s of which only `function`
nodes are kept by `Class.eval`'s `flatten_methods`. -/
inductive Stmt where
  | exprS (e : Expr) : Stmt
  | ret (expr : Expr) : Stmt
  | varDef (name : String) (value : Expr) : Stmt
  | ifS (cond : Expr) (thenBranch : Stmt) (elseBranch : Option Stmt) : Stmt
  | whileS (cond : Expr) (body : Stmt) : Stmt
  | block (stmts : List Stmt) : Stmt
  | function (name : String) (params : List String) (body : Stmt) : Stmt
  | classS (name : String) (superclass : Option Expr) (methods : List Stmt) : Stmt
  | print (expr : Expr) : Stmt
end

/-- A program: a list of statements (`Program` in `ast.py`). -/
structure Program where
  stmts : List Stmt

mutual
/-- Structural comparison of expression nodes: what Python's
dataclass-generated `__eq__` computes on AST dataclasses (field-wise `==`,
recursively).  Reached through `lox_eq` when both operands are
`LoxFunction` values, whose `body` holds AST nodes. -/
def Expr.beq : Expr → Expr → Bool
  | .binOp l r o, .binOp l' r' o' => Expr.beq l l' && Expr.beq r r' && o == o'
  | .var n, .var n' => n == n'
  | .literal v, .literal v' => v == v'
  | .and l r, .and l' r' => Expr.beq l l' && Expr.beq r r'
  | .or l r, .or l' r' => Expr.beq l l' && Expr.beq r r'
  | .unaryOp o v, .unaryOp o' v' => o == o' && Expr.beq v v'
  | .call f a, .call f' a' => Expr.beq f f' && Expr.listBeq a a'
  | .getattr o a, .getattr o' a' => Expr.beq o o' && a == a'
  | .setattr o a v, .setattr o' a' v' => Expr.beq o o' && a == a' && Expr.beq v v'
  | .thisE, .thisE => true
  | .superE a, .superE a' => a == a'
  | .assign n v, .assign n' v' => n == n' && Expr.beq v v'
  | _, _ => false

/-- Element-wise comparison of expression lists. -/
def Expr.listBeq : List Expr → List Expr → Bool
  | [], [] => true
  | x :: xs, y :: ys => Expr.beq x y && Expr.listBeq xs ys
  | _, _ => false

/-- Comparison of optional expressions. -/
def Expr.optBeq : Option Expr → Option Expr → Bool
  | none, none => true
  | some x, some y => Expr.beq x y
  | _, _ => false

/-- Structural comparison of statement nodes (dataclass `__eq__`). -/
def Stmt.beq : Stmt → Stmt → Bool
  | .exprS e, .exprS e' => Expr.beq e e'
  | .ret e, .ret e' => Expr.beq e e'
  | .varDef n v, .varDef n' v' => n == n' && Expr.beq v v'
  | .ifS c t e, .ifS c' t' e' => Expr.beq c c' && Stmt.beq t t' && Stmt.optBeq e e'
  | .whileS c b, .whileS c' b' => Expr.beq c c' && Stmt.beq b b'
  | .block ss, .block ss' => Stmt.listBeq ss ss'
  | .function n p b, .function n' p' b' => n == n' && p == p' && Stmt.beq b b'
  | .classS n sc m, .classS n' sc' m' =>
      n == n' && Expr.optBeq sc sc' && Stmt.listBeq m m'
  | .print e, .print e' => Expr.beq e e'
  | _, _ => false

/-- Element-wise comparison of statement lists. -/
def Stmt.listBeq : List Stmt → List Stmt → Bool
  | [], [] => true
  | x :: xs, y :: ys => Stmt.beq x y && Stmt.listBeq xs ys
  | _, _ => false

/-- Comparison of optional statements. -/
def Stmt.optBeq : Option Stmt → Option Stmt → Bool
  | none, none => true
  | some x, some y => Stmt.beq x y
  | _, _ => false
end

/-!
## Runtime values (`src/lox/runtime.py`)

Mutable Python objects reached by reference — `Ctx` environment frames and
`LoxInstance` objects — are stored in `State` and referenced by index, so
that sharing and mutation behave as in the source.
-/

/-- The `LoxFunction` dataclass.  `ctx` is the store index of the captured
environment frame (the Python `Ctx` reference). -/
structure LoxFunction where
  name : String
  args : List String
  body : List Stmt
  ctx : Nat
  is_bound_method : Bool := false

/-- The `LoxClass` dataclass: name, method dict (insertion-ordered
association list), optional base class. -/
inductive LoxClass where
  | mk (name : String) (methods : List (String × LoxFunction))
       (base : Option LoxClass) : LoxClass

/-- The class name. -/
def LoxClass.name : LoxClass → String
  | .mk n _ _ => n

/-- The method dictionary. -/
def LoxClass.methods : LoxClass → List (String × LoxFunction)
  | .mk _ m _ => m

/-- The optional base class. -/
def LoxClass.base : LoxClass → Option LoxClass
  | .mk _ _ b => b

/-- A Lox runtime value: `None`, `bool`, `float`, `str`, or one of the
runtime object types.  Instances are held by store reference (Python object
identity); functions and classes are immutable after construction and are
held inline. -/
inductive Value where
  | nil : Value
  | bool (b : Bool) : Value
  | num (n : Num) : Value
  | str (s : String) : Value
  | fn (f : LoxFunction) : Value
  | cls (c : LoxClass) : Value
  | inst (ref : Nat) : Value

/-- Association-list lookup (Python `dict` access by key). -/
def alookup {α : Type} : List (String × α) → String → Option α
  | [], _ => none
  | (k, v) :: rest, key => if k == key then some v else alookup rest key

/-- Association-list write: overwrite in place when the key exists, else
append (Python `dict` insertion-order semantics). -/
def ainsert {α : Type} : List (String × α) → String → α → List (String × α)
  | [], key, v => [(key, v)]
  | (k, w) :: rest, key, v =>
      if k == key then (k, v) :: rest else (k, w) :: ainsert rest key v

/-- The state of a `LoxInstance` object: its class and mutable field map. -/
structure InstData where
  klass : LoxClass
  fields : List (String × Value)

/-- One environment frame: bindings plus a parent link.
Modelled from the spec: `src/lox/ctx.py` (class `Ctx`) is not among the
provided sources; §4.2 specifies an environment as a node holding a
name-to-value map and a reference to an outer environment. -/
structure EnvFrame where
  vars : List (String × Value)
  parent : Option Nat

/-- The mutable store: environment frames, instance objects, and the lines
printed so far. -/
structure State where
  envs : List EnvFrame
  insts : List InstData
  output : List String

/-- Allocate a new environment frame (the spec's `push`): returns its index
and the grown store.  Modelled from the spec (§4.2, lifecycle of
environments). -/
def State.pushEnv (s : State) (vars : List (String × Value))
    (parent : Option Nat) : Nat × State :=
  (s.envs.length, { s with envs := s.envs ++ [⟨vars, parent⟩] })

/-- Walk the chain from frame `i` outward, returning the binding of `name`
in the nearest frame that has it.  The recursion is bounded by `fuel`; in
every state the evaluator builds, parent indices point to previously
allocated frames, so `s.envs.length` steps always suffice.
Modelled from the spec (§4.2 `get`). -/
def chainLookup (s : State) : Nat → Nat → String → Option Value
  | 0, _, _ => none
  | fuel + 1, i, name =>
      match s.envs[i]? with
      | none => none
      | some fr =>
          match alookup fr.vars name with
          | some v => some v
          | none =>
              match fr.parent with
              | some p => chainLookup s fuel p name
              | none => none

/-- `ctx[name]`: chain lookup from frame `i`.  Modelled from the spec
(§4.2 `get`; a miss is `UndefinedVariable`). -/
def ctxGet (s : State) (i : Nat) (name : String) : Option Value :=
  chainLookup s s.envs.length i name

/-- Index of the nearest frame in the chain from `i` that defines `name`.
Modelled from the spec (§4.2 `assign` resolution). -/
def chainFind (s : State) : Nat → Nat → String → Option Nat
  | 0, _, _ => none
  | fuel + 1, i, name =>
      match s.envs[i]? with
      | none => none
      | some fr =>
          if (alookup fr.vars name).isSome then some i
          else
            match fr.parent with
            | some p => chainFind s fuel p name
            | none => none

/-- `name in ctx`: membership over the whole chain.  Modelled from the spec
(§4.2; used by `LoxFunction.__call__` for `'this' in call_ctx`). -/
def ctxContains (s : State) (i : Nat) (name : String) : Bool :=
  (chainFind s s.envs.length i name).isSome

/-- `ctx.var_def(name, value)`: create or overwrite a binding in frame `i`.
Modelled from the spec (§4.2 `define`). -/
def State.varDef (s : State) (i : Nat) (name : String) (v : Value) : State :=
  match s.envs[i]? with
  | none => s
  | some fr =>
      { s with envs := s.envs.set i { fr with vars := ainsert fr.vars name v } }

/-- `ctx.assign(name, value)`: overwrite in the nearest frame that defines
`name`; `none` when no frame does (`UndefinedVariable`).  Assignment never
creates a binding.  Modelled from the spec (§4.2 `assign`). -/
def ctxAssign (s : State) (i : Nat) (name : String) (v : Value) :
    Option State :=
  match chainFind s s.envs.length i name with
  | none => none
  | some j => some (s.varDef j name v)

/-- Allocate a fresh `LoxInstance` of class `k` with empty fields
(`LoxInstance.__init__`): returns its reference and the grown store. -/
def State.newInstance (s : State) (k : LoxClass) : Nat × State :=
  (s.insts.length, { s with insts := s.insts ++ [⟨k, []⟩] })

/-- Read an instance object from the store. -/
def State.getInst (s : State) (r : Nat) : Option InstData :=
  s.insts[r]?

/-- `LoxInstance.set` / field write: `fields[name] = value`. -/
def State.setField (s : State) (r : Nat) (name : String) (v : Value) : State :=
  match s.insts[r]? with
  | none => s
  | some d =>
      { s with insts := s.insts.set r { d with fields := ainsert d.fields name v } }

/-!
## Errors

Each constructor records which host exception class the source raises.
-/

/-- The failures the modelled code can raise. -/
inductive LoxErr where
  | loxError (msg : String) : LoxErr
  | runtimeErr (msg : String) : LoxErr
  | valueErr (expected got : Nat) : LoxErr
  | attributeErr (msg : String) : LoxErr
  | typeErr (msg : String) : LoxErr
  | keyErr (name : String) : LoxErr
  | semanticErr (msg : String) : LoxErr
  | hostOp (msg : String) : LoxErr
  | badRef : LoxErr
deriving DecidableEq

/-!
`loxError` is `runtime.LoxError`; `runtimeErr` a Python `RuntimeError`;
`valueErr` the `ValueError` raised by `dict(zip(params, args, strict=True))`
on a length mismatch, recorded with the two lengths; `attributeErr` a Python
`AttributeError`; `typeErr` a Python `TypeError` (calling a non-callable);
`keyErr` a miss in the `Ctx` chain (the spec's `UndefinedVariable`);
`semanticErr` an `errors.SemanticError`; `hostOp` marks host-level
`getattr`/`setattr` reaching a function or class object, whose result is
outside this model (no claim exercises it); `badRef` a dangling store
index, which evaluated programs never produce.
-/

/-!
## Primitive operators (`src/lox/runtime.py`)
-/

/-- `runtime.truthy`: only `nil` and `false` are falsy. -/
def truthy : Value → Bool
  | .nil => false
  | .bool false => false
  | _ => true

/-- Python's own truth test `bool(v)`, which `While.eval` applies through
`while self.cond.eval(ctx):` — this is NOT `runtime.truthy`: under it
`0.0`, `-0.0` and `""` are falsy (and NaN is truthy).  Functions, classes
and instances are truthy (none of those types defines a falsifying
truth-test hook). -/
def pyTruthy : Value → Bool
  | .nil => false
  | .bool b => b
  | .num n => !(n.ieeeEq (.fin 0))
  | .str s => !(s == "")
  | _ => true

/-- `LoxFunction` dataclass field-wise comparison (its generated `__eq__`).
The `ctx` references compare by index, matching Python's comparison of the
`Ctx` objects by identity. -/
def LoxFunction.beq (f g : LoxFunction) : Bool :=
  f.name == g.name && f.args == g.args && Stmt.listBeq f.body g.body &&
    f.ctx == g.ctx && f.is_bound_method == g.is_bound_method

/-- Element-wise comparison of method dictionaries.  (Python `dict`
equality ignores insertion order; the method dicts compared by `lox_eq`
arise from the same construction order, so ordered comparison agrees.) -/
def methodsBeq : List (String × LoxFunction) → List (String × LoxFunction) → Bool
  | [], [] => true
  | (k, f) :: xs, (k', g) :: ys => k == k' && f.beq g && methodsBeq xs ys
  | _, _ => false

/-- `LoxClass` dataclass field-wise comparison (its generated `__eq__`). -/
def LoxClass.beq : LoxClass → LoxClass → Bool
  | .mk n m b, .mk n' m' b' =>
      n == n' && methodsBeq m m' &&
        match b, b' with
        | none, none => true
        | some x, some y => LoxClass.beq x y
        | _, _ => false

/-- Python `a == b` for operands of the same runtime type (the only way
`lox_eq` reaches it): floats by IEEE equality, `str`/`bool`/`None` by
value, `LoxFunction`/`LoxClass` by their dataclass-generated field
comparison, `LoxInstance` by reference identity (`object.__eq__`). -/
def pyEqSame : Value → Value → Bool
  | .nil, .nil => true
  | .bool a, .bool b => a == b
  | .num a, .num b => a.ieeeEq b
  | .str a, .str b => a == b
  | .fn f, .fn g => f.beq g
  | .cls c, .cls d => c.beq d
  | .inst r, .inst r' => r == r'
  | _, _ => false

/-- `type(a) == type(b)`: the seven value shapes are seven distinct Python
types (`NoneType`, `bool`, `float`, `str`, `LoxFunction`, `LoxClass`,
`LoxInstance`), so the type check is agreement of variants. -/
def Value.sameType : Value → Value → Bool
  | .nil, .nil => true
  | .bool _, .bool _ => true
  | .num _, .num _ => true
  | .str _, .str _ => true
  | .fn _, .fn _ => true
  | .cls _, .cls _ => true
  | .inst _, .inst _ => true
  | _, _ => false

/-- `runtime.lox_eq`: different types are never equal; same types compare
with Python `==`.  Total — Python `==` raises nothing here. -/
def lox_eq (a b : Value) : Bool :=
  if a.sameType b then pyEqSame a b else false

/-- `runtime.lox_ne`. -/
def lox_ne (a b : Value) : Bool :=
  !lox_eq a b

/-- `runtime.lox_add`: numeric add for two floats, concatenation for two
strings, otherwise `LoxError`.  (`isinstance(True, float)` is false, so
booleans take the error branch.) -/
def lox_add : Value → Value → Except LoxErr Value
  | .num a, .num b => .ok (.num (a.add b))
  | .str a, .str b => .ok (.str (a ++ b))
  | _, _ => .error (.loxError "Operands must be two numbers or two strings.")

/-- `runtime.lox_sub`. -/
def lox_sub : Value → Value → Except LoxErr Value
  | .num a, .num b => .ok (.num (a.sub b))
  | _, _ => .error (.loxError "Operands must be numbers.")

/-- `runtime.lox_mul`. -/
def lox_mul : Value → Value → Except LoxErr Value
  | .num a, .num b => .ok (.num (a.mul b))
  | _, _ => .error (.loxError "Operands must be numbers.")

/-- `runtime.lox_div`: both operands must be floats; a divisor comparing
`== 0` (IEEE comparison, so `-0.0` too but not NaN) raises before
dividing. -/
def lox_div : Value → Value → Except LoxErr Value
  | .num a, .num b =>
      if b.ieeeEq (.fin 0) then .error (.loxError "Division by zero.")
      else .ok (.num (a.div b))
  | _, _ => .error (.loxError "Operands must be numbers.")

/-- `runtime.lox_neg`. -/
def lox_neg : Value → Except LoxErr Value
  | .num a => .ok (.num a.neg)
  | _ => .error (.loxError "Operand must be a number.")

/-- `runtime.lox_gt`. -/
def lox_gt : Value → Value → Except LoxErr Value
  | .num a, .num b => .ok (.bool (a.gt b))
  | _, _ => .error (.loxError "Operands must be numbers.")

/-- `runtime.lox_ge`. -/
def lox_ge : Value → Value → Except LoxErr Value
  | .num a, .num b => .ok (.bool (a.ge b))
  | _, _ => .error (.loxError "Operands must be numbers.")

/-- `runtime.lox_lt`. -/
def lox_lt : Value → Value → Except LoxErr Value
  | .num a, .num b => .ok (.bool (a.lt b))
  | _, _ => .error (.loxError "Operands must be numbers.")

/-- `runtime.lox_le`. -/
def lox_le : Value → Value → Except LoxErr Value
  | .num a, .num b => .ok (.bool (a.le b))
  | _, _ => .error (.loxError "Operands must be numbers.")

/-- `runtime.lox_not`: `not truthy(a)`. -/
def lox_not (a : Value) : Value :=
  .bool (!truthy a)

/-- `runtime.show`: Lox rendering of a value.  The branch for non-integral
finite doubles abstracts Python's shortest-round-trip `str(float)` as the
rational's string; no claim depends on that text.  Instances render through
their class's Lox name, read from the store. -/
def showValue (s : State) : Value → String
  | .nil => "nil"
  | .bool true => "true"
  | .bool false => "false"
  | .num .nan => "nan"
  | .num (.fin q) => if q.den = 1 then toString q.num else toString q
  | .fn f => "<fn " ++ f.name ++ ">"
  | .inst r =>
      match s.getInst r with
      | some d => d.klass.name ++ " instance"
      | none => "instance"
  | .cls c => c.name
  | .str t => t

/-- `LoxClass.get_method`: `name = str(name).strip()` (surrounding
whitespace removed, as `String.trim` does), then the class's own method
dict, then the base chain; `none` when absent everywhere. -/
def LoxClass.get_method : LoxClass → String → Option LoxFunction
  | .mk _ methods base, n =>
      match alookup methods n.trim with
      | some m => some m
      | none =>
          match base with
          | some b => b.get_method n.trim
          | none => none

/-- `LoxFunction.bind`: a new `LoxFunction` sharing name, parameters and
body, whose context is a fresh child frame binding `this` to `obj`, with
`is_bound_method` set. -/
def LoxFunction.bind (f : LoxFunction) (obj : Value) (s : State) :
    LoxFunction × State :=
  let es := s.pushEnv [("this", obj)] (some f.ctx)
  ({ f with ctx := es.1, is_bound_method := true }, es.2)

/-!
## Evaluation

The evaluator is fuel-indexed: `.diverge` means the computation was cut off
by the fuel bound, never that the source program fails.  `.ret` is the
`LoxReturn` control-flow exception travelling upward; `.err` is a raised
error.  Python statement evaluation returns values that every caller
discards, so statements produce `Unit` here.
-/

/-- Outcome of evaluating a piece of program against a store. -/
inductive Outcome (α : Type) where
  | ok (a : α) (s : State) : Outcome α
  | err (e : LoxErr) (s : State) : Outcome α
  | ret (v : Value) (s : State) : Outcome α
  | diverge : Outcome α

/-- A `Literal`'s payload as a runtime value (`Literal.eval` returns its
stored value unchanged). -/
def Value.ofLit : Lit → Value
  | .nil => .nil
  | .bool b => .bool b
  | .num n => .num n
  | .str s => .str s

/-- The operator dispatch of `BinOp.eval`, keyed on the symbolic operator
string; an unknown operator raises `RuntimeError`. -/
def binOpApply (op : String) (a b : Value) : Except LoxErr Value :=
  if op == "+" then lox_add a b
  else if op == "-" then lox_sub a b
  else if op == "*" then lox_mul a b
  else if op == "/" then lox_div a b
  else if op == "==" then .ok (.bool (lox_eq a b))
  else if op == "!=" then .ok (.bool (lox_ne a b))
  else if op == ">" then lox_gt a b
  else if op == ">=" then lox_ge a b
  else if op == "<" then lox_lt a b
  else if op == "<=" then lox_le a b
  else .error (.runtimeErr ("Operador desconhecido: " ++ op))

/-- Python's `AttributeError` message for a missing attribute on an object
of a built-in type. -/
def pyNoAttrMsg (tyName attr : String) : String :=
  "\x27" ++ tyName ++ "\x27 object has no attribute \x27" ++ attr ++ "\x27"

/-- `LoxInstance.get`: the instance's own field map first; else the class's
`get_method`, the found method bound to the instance; else
`AttributeError("'CLASS' instance has no attribute 'NAME'")`. -/
def instGet (s : State) (r : Nat) (name : String) : Outcome Value :=
  match s.getInst r with
  | none => .err .badRef s
  | some d =>
      match alookup d.fields name with
      | some v => .ok v s
      | none =>
          match d.klass.get_method name with
          | some m =>
              let fs := m.bind (.inst r) s
              .ok (.fn fs.1) fs.2
          | none =>
              .err (.attributeErr ("\x27" ++ d.klass.name ++
                "\x27 instance has no attribute \x27" ++ name ++ "\x27")) s

/-- The dispatch of `Getattr.eval` once the object is evaluated: instances
go through `LoxInstance.get`; on any other value the source falls back to
host `getattr`, whose result depends on the host type's attribute table —
outside this model (`hostOp`); no claim exercises that branch. -/
def getattrDispatch (obj : Value) (attr : String) (s : State) :
    Outcome Value :=
  match obj with
  | .inst r => instGet s r attr
  | _ => .err (.hostOp ("host getattr " ++ attr)) s

/-- The dispatch of `Setattr.eval` once both sub-expressions are evaluated:
instances get a field write through `LoxInstance.set`; on any other value
the source falls back to host `setattr`, which raises `AttributeError` on
`None`/`bool`/`float`/`str` objects (built-in types accept no attribute
writes at all) and succeeds on `LoxFunction`/`LoxClass` objects (dataclass
instances accept new attributes; the written attribute lives on the host
object only, invisible to every modelled observation). -/
def setattrDispatch (obj : Value) (attr : String) (v : Value) (s : State) :
    Outcome Unit :=
  match obj with
  | .inst r => .ok () (s.setField r attr v)
  | .nil => .err (.attributeErr (pyNoAttrMsg "NoneType" attr)) s
  | .bool _ => .err (.attributeErr (pyNoAttrMsg "bool" attr)) s
  | .num _ => .err (.attributeErr (pyNoAttrMsg "float" attr)) s
  | .str _ => .err (.attributeErr (pyNoAttrMsg "str" attr)) s
  | .fn _ => .ok () s
  | .cls _ => .ok () s

/-- `Function.eval`'s normalisation of the declared body into a statement
list: a `Block` contributes its statement list, any other single statement
becomes a singleton.  (The source also accepts `None` and raw parser lists;
on this AST those cases coincide with the two below.) -/
def bodyStmts : Stmt → List Stmt
  | .block ss => ss
  | st => [st]

/-- The `LoxFunction` value constructed by `Function.eval`: declared name,
parameter names, normalised body, the defining context; not a bound
method. -/
def funToValue (name : String) (params : List String) (body : Stmt)
    (c : Nat) : LoxFunction :=
  { name := name, args := params, body := bodyStmts body, ctx := c }

/-- The `is_init` test of `LoxFunction.__call__`: the function's declared
name is exactly `init`, it was produced by `bind`, and `this` is reachable
in the call context chain. -/
def isInitCall (f : LoxFunction) (s : State) (callCtx : Nat) : Bool :=
  f.name == "init" && f.is_bound_method && ctxContains s callCtx "this"

/-- `dict(zip(params, args))` once the strict length check has passed:
later duplicates overwrite earlier ones, as in a Python dict build. -/
def paramEnv (params : List String) (args : List Value) :
    List (String × Value) :=
  (params.zip args).foldl (fun m kv => ainsert m kv.1 kv.2) []

/-- The class-construction part of `Class.eval` after the superclass
expression (if any) has been evaluated and checked: push the class context
defining the class name as `nil`, keep only `Function` nodes of the method
list with a non-empty name (`flatten_methods` and the registration loop),
start the method dict from the base's methods, create each method's
`LoxFunction` against the method context (which adds a `super` binding when
there is a base), build the `LoxClass`, assign it over the `nil`
placeholder and define it in the enclosing context. -/
def buildClass (name : String) (base : Option LoxClass)
    (methods : List Stmt) (c : Nat) (s : State) : Outcome Unit :=
  let es := s.pushEnv [(name, Value.nil)] (some c)
  let classCtx := es.1
  let s1 := es.2
  let fnDecls := methods.filterMap (fun m =>
    match m with
    | .function mn mp mb => if mn == "" then none else some (mn, mp, mb)
    | _ => none)
  let inherited :=
    match base with
    | some b => b.methods
    | none => []
  let ms :=
    match base with
    | some b => s1.pushEnv [("super", Value.cls b)] (some classCtx)
    | none => (classCtx, s1)
  let methodCtx := ms.1
  let s2 := ms.2
  let methodDict := fnDecls.foldl
    (fun d fd => ainsert d fd.1 (funToValue fd.1 fd.2.1 fd.2.2 methodCtx))
    inherited
  let klass := LoxClass.mk name methodDict base
  let s3 :=
    match ctxAssign s2 classCtx name (Value.cls klass) with
    | some s' => s'
    | none => s2
  .ok () (s3.varDef c name (Value.cls klass))

mutual
/-- `Expr.eval`, by node, against context frame `c`. -/
def evalExpr : Nat → Expr → Nat → State → Outcome Value
  | 0, _, _, _ => .diverge
  | fuel + 1, e, c, s =>
      match e with
      | .binOp l r op =>
          match evalExpr fuel l c s with
          | .ok lv s1 =>
              match evalExpr fuel r c s1 with
              | .ok rv s2 =>
                  match binOpApply op lv rv with
                  | .ok v => .ok v s2
                  | .error er => .err er s2
              | o => o
          | o => o
      | .var n =>
          match ctxGet s c n with
          | some v => .ok v s
          | none => .err (.keyErr n) s
      | .literal v => .ok (Value.ofLit v) s
      | .and l r =>
          match evalExpr fuel l c s with
          | .ok lv s1 => if truthy lv then evalExpr fuel r c s1 else .ok lv s1
          | o => o
      | .or l r =>
          match evalExpr fuel l c s with
          | .ok lv s1 => if truthy lv then .ok lv s1 else evalExpr fuel r c s1
          | o => o
      | .unaryOp op v =>
          match evalExpr fuel v c s with
          | .ok vv s1 =>
              if op == "-" then
                match lox_neg vv with
                | .ok w => .ok w s1
                | .error er => .err er s1
              else if op == "!" then .ok (lox_not vv) s1
              else .err (.runtimeErr ("Operador unário desconhecido: " ++ op)) s1
          | o => o
      | .call f args =>
          match evalExpr fuel f c s with
          | .ok fv s1 =>
              match evalExprList fuel args c s1 with
              | .ok avs s2 => callValue fuel fv avs s2
              | .err er st => .err er st
              | .ret v st => .ret v st
              | .diverge => .diverge
          | o => o
      | .getattr obj attr =>
          match evalExpr fuel obj c s with
          | .ok ov s1 => getattrDispatch ov attr s1
          | o => o
      | .setattr obj attr v =>
          match evalExpr fuel obj c s with
          | .ok ov s1 =>
              match evalExpr fuel v c s1 with
              | .ok vv s2 =>
                  match setattrDispatch ov attr vv s2 with
                  | .ok _ s3 => .ok vv s3
                  | .err er st => .err er st
                  | .ret rv st => .ret rv st
                  | .diverge => .diverge
              | o => o
          | o => o
      | .thisE =>
          match ctxGet s c "this" with
          | some v => .ok v s
          | none => .err (.keyErr "this") s
      | .superE attr =>
          match ctxGet s c "super" with
          | none => .err (.keyErr "super") s
          | some sv =>
              match ctxGet s c "this" with
              | none => .err (.keyErr "this") s
              | some tv =>
                  match sv with
                  | .cls k =>
                      match k.get_method attr with
                      | none =>
                          .err (.runtimeErr ("Superclasse não tem método \x27" ++
                            attr ++ "\x27")) s
                      | some m =>
                          let fs := m.bind tv s
                          .ok (.fn fs.1) fs.2
                  | _ => .err (.hostOp "get_method on a non-class") s
      | .assign n v =>
          match evalExpr fuel v c s with
          | .ok vv s1 =>
              match ctxAssign s1 c n vv with
              | some s2 => .ok vv s2
              | none => .err (.keyErr n) s1
          | o => o

/-- Left-to-right evaluation of an argument list (`Call.eval`'s
comprehension). -/
def evalExprList : Nat → List Expr → Nat → State → Outcome (List Value)
  | 0, _, _, _ => .diverge
  | _ + 1, [], _, s => .ok [] s
  | fuel + 1, e :: es, c, s =>
      match evalExpr fuel e c s with
      | .ok v s1 =>
          match evalExprList fuel es c s1 with
          | .ok vs s2 => .ok (v :: vs) s2
          | o => o
      | .err er st => .err er st
      | .ret v st => .ret v st
      | .diverge => .diverge

/-- `func_value(*arg_values)`: dispatch on the callee's runtime type; a
non-callable callee raises the host `TypeError`. -/
def callValue : Nat → Value → List Value → State → Outcome Value
  | 0, _, _, _ => .diverge
  | fuel + 1, v, args, s =>
      match v with
      | .fn f => callFunction fuel f args s
      | .cls k => callClass fuel k args s
      | _ => .err (.typeErr "object is not callable") s

/-- `LoxFunction.__call__`: strict parameter/argument zip (a length
mismatch raises `ValueError` before anything runs), a fresh call frame over
the captured context, the `is_init` test, body execution, and the
initializer special case returning the `this` binding. -/
def callFunction : Nat → LoxFunction → List Value → State → Outcome Value
  | 0, _, _, _ => .diverge
  | fuel + 1, f, args, s =>
      if f.args.length ≠ args.length then
        .err (.valueErr f.args.length args.length) s
      else
        let es := s.pushEnv (paramEnv f.args args) (some f.ctx)
        let callCtx := es.1
        let s1 := es.2
        let isInit := isInitCall f s1 callCtx
        match evalStmtList fuel f.body callCtx s1 with
        | .ret v s2 =>
            if isInit then
              match ctxGet s2 callCtx "this" with
              | some tv => .ok tv s2
              | none => .err (.keyErr "this") s2
            else .ok v s2
        | .ok _ s2 =>
            if isInit then
              match ctxGet s2 callCtx "this" with
              | some tv => .ok tv s2
              | none => .err (.keyErr "this") s2
            else .ok .nil s2
        | .err er st => .err er st
        | .diverge => .diverge

/-- `LoxClass.__call__`: allocate the instance, look up `init` through the
hierarchy; when found, bind it to the instance and invoke it with the
arguments; when absent, non-empty arguments raise
`RuntimeError("Expected 0 arguments but got N.")`; return the instance. -/
def callClass : Nat → LoxClass → List Value → State → Outcome Value
  | 0, _, _, _ => .diverge
  | fuel + 1, k, args, s =>
      let is := s.newInstance k
      let r := is.1
      let s1 := is.2
      match k.get_method "init" with
      | some m =>
          let bs := m.bind (.inst r) s1
          match callFunction fuel bs.1 args bs.2 with
          | .ok _ s2 => .ok (.inst r) s2
          | .err er st => .err er st
          | .ret v st => .ret v st
          | .diverge => .diverge
      | none =>
          if args.length ≠ 0 then
            .err (.runtimeErr ("Expected 0 arguments but got " ++
              toString args.length ++ ".")) s1
          else .ok (.inst r) s1

/-- `Stmt.eval`, by node.  Return values of Python statement evaluation are
discarded (every caller in the source ignores them). -/
def evalStmt : Nat → Stmt → Nat → State → Outcome Unit
  | 0, _, _, _ => .diverge
  | fuel + 1, st, c, s =>
      match st with
      | .exprS e =>
          match evalExpr fuel e c s with
          | .ok _ s1 => .ok () s1
          | .err er st' => .err er st'
          | .ret v st' => .ret v st'
          | .diverge => .diverge
      | .ret e =>
          match evalExpr fuel e c s with
          | .ok v s1 => .ret v s1
          | .err er st' => .err er st'
          | .ret v st' => .ret v st'
          | .diverge => .diverge
      | .varDef n v =>
          match evalExpr fuel v c s with
          | .ok vv s1 => .ok () (s1.varDef c n vv)
          | .err er st' => .err er st'
          | .ret rv st' => .ret rv st'
          | .diverge => .diverge
      | .ifS cond t e =>
          match evalExpr fuel cond c s with
          | .ok cv s1 =>
              if truthy cv then evalStmt fuel t c s1
              else
                match e with
                | some eb => evalStmt fuel eb c s1
                | none => .ok () s1
          | .err er st' => .err er st'
          | .ret rv st' => .ret rv st'
          | .diverge => .diverge
      | .whileS cond body =>
          match evalExpr fuel cond c s with
          | .ok cv s1 =>
              if pyTruthy cv then
                match evalStmt fuel body c s1 with
                | .ok _ s2 => evalStmt fuel (.whileS cond body) c s2
                | o => o
              else .ok () s1
          | .err er st' => .err er st'
          | .ret rv st' => .ret rv st'
          | .diverge => .diverge
      | .block ss =>
          let es := s.pushEnv [] (some c)
          evalStmtList fuel ss es.1 es.2
      | .function n params body =>
          .ok () (s.varDef c n (.fn (funToValue n params body c)))
      | .classS n sup methods =>
          match sup with
          | some se =>
              match evalExpr fuel se c s with
              | .ok sv s1 =>
                  match sv with
                  | .cls base => buildClass n (some base) methods c s1
                  | v =>
                      .err (.semanticErr ("Superclasse \x27" ++ showValue s1 v ++
                        "\x27 não é uma classe.")) s1
              | .err er st' => .err er st'
              | .ret rv st' => .ret rv st'
              | .diverge => .diverge
          | none => buildClass n none methods c s
      | .print e =>
          match evalExpr fuel e c s with
          | .ok v s1 => .ok () { s1 with output := s1.output ++ [showValue s1 v] }
          | .err er st' => .err er st'
          | .ret rv st' => .ret rv st'
          | .diverge => .diverge

/-- Sequential execution of a statement list (`Program.eval` and block and
function bodies). -/
def evalStmtList : Nat → List Stmt → Nat → State → Outcome Unit
  | 0, _, _, _ => .diverge
  | _ + 1, [], _, s => .ok () s
  | fuel + 1, st :: rest, c, s =>
      match evalStmt fuel st c s with
      | .ok _ s1 => evalStmtList fuel rest c s1
      | o => o
end

/-- `Program.eval`: the statements in order against the global frame. -/
def evalProgram (fuel : Nat) (p : Program) (c : Nat) (s : State) :
    Outcome Unit :=
  evalStmtList fuel p.stmts c s

/-!
## Semantic validation

The `validate_self` methods live in `src/lox/ast.py`; the tree walk that
invokes them (`node.py`, class `Cursor`) is not among the provided sources
and is modelled from the spec.
-/

/-- An entry of a cursor's ancestor chain: an enclosing statement,
expression, or the `Program` root. -/
inductive PNode where
  | ofStmt (s : Stmt) : PNode
  | ofExpr (e : Expr) : PNode
  | root : PNode

/-- Is this ancestor a `Class` node?  (`isinstance(parent_cursor.node,
Class)`.) -/
def PNode.isClass : PNode → Bool
  | .ofStmt (.classS _ _ _) => true
  | _ => false

/-- Is this ancestor a `Function` node?  (`isinstance(parent_cursor.node,
Function)`.) -/
def PNode.isFunction : PNode → Bool
  | .ofStmt (.function _ _ _) => true
  | _ => false

/-- `This.validate_self`: walk the ancestor chain, accept at the first
`Class` node, reject when the chain is exhausted. -/
def thisValidate : List PNode → Except LoxErr Unit
  | [] =>
      .error (.semanticErr
        "\x27this\x27 só pode ser usado dentro de métodos de uma classe.")
  | p :: rest => if p.isClass then .ok () else thisValidate rest

/-- `Return.validate_self`: walk the ancestor chain, accept at the first
`Function` node, reject when the chain is exhausted.  This is the whole
check — nothing inspects the returned expression or an enclosing `init`
method. -/
def returnValidate : List PNode → Except LoxErr Unit
  | [] =>
      .error (.semanticErr
        "\x27return\x27 só pode ser usado dentro de funções.")
  | p :: rest => if p.isFunction then .ok () else returnValidate rest

/-- `Super.validate_self`: at the first enclosing `Class` node, accept
exactly when it declares a superclass (the source's list/`Tree` unwrapping
of that field is the identity on this AST); reject when no `Class`
encloses the node. -/
def superValidate : List PNode → Except LoxErr Unit
  | [] =>
      .error (.semanticErr
        "\x27super\x27 só pode ser usado dentro de métodos de uma classe.")
  | .ofStmt (.classS _ sup _) :: _ =>
      match sup with
      | some _ => .ok ()
      | none =>
          .error (.semanticErr
            "\x27super\x27 só pode ser usado em classes que herdam de outra classe.")
  | _ :: rest => superValidate rest

/-- Names declared by `VarDef` statements of a statement list. -/
def varDefNames : List Stmt → List String
  | [] => []
  | .varDef n _ :: rest => n :: varDefNames rest
  | _ :: rest => varDefNames rest

/-- `VarDef.validate_self`: when the immediate parent is a `Block`, the
name must not occur more than once among the block's `VarDef` names. -/
def varDefValidate (name : String) (parents : List PNode) :
    Except LoxErr Unit :=
  match parents with
  | .ofStmt (.block ss) :: _ =>
      if 1 < (varDefNames ss).count name then
        .error (.semanticErr "variável duplicada no bloco")
      else .ok ()
  | _ => .ok ()

/-- `len(names) != len(set(names))`: does the list repeat an entry? -/
def hasDup : List String → Bool
  | [] => false
  | n :: rest => rest.contains n || hasDup rest

/-- `Block.validate_self`: the block's `VarDef` names must be distinct. -/
def blockValidate (ss : List Stmt) : Except LoxErr Unit :=
  if hasDup (varDefNames ss) then
    .error (.semanticErr "variável duplicada no bloco")
  else .ok ()

/-- `Function.validate_self`: duplicate parameter names are rejected, then
a body `VarDef` whose name collides with a parameter is rejected. -/
def functionValidate (params : List String) (body : Stmt) :
    Except LoxErr Unit :=
  if hasDup params then .error (.semanticErr "parâmetro duplicado")
  else if (varDefNames (bodyStmts body)).any (fun n => params.contains n) then
    .error (.semanticErr "variável colide com parâmetro")
  else .ok ()

mutual
/-- Validation walk over an expression.
Modelled from the spec: the `Cursor` walk of `node.py` is not among the
provided sources; §4.5 specifies a single pre-execution pass applying each
node's semantic check with access to its ancestor chain (nearest ancestor
first, ending at the `Program` root).  A node's own check runs before its
children's; nodes with no check listed in the source are unchecked. -/
def validateExpr (anc : List PNode) : Expr → Except LoxErr Unit
  | .binOp l r op => do
      validateExpr (.ofExpr (.binOp l r op) :: anc) l
      validateExpr (.ofExpr (.binOp l r op) :: anc) r
  | .var _ => .ok ()
  | .literal _ => .ok ()
  | .and l r => do
      validateExpr (.ofExpr (.and l r) :: anc) l
      validateExpr (.ofExpr (.and l r) :: anc) r
  | .or l r => do
      validateExpr (.ofExpr (.or l r) :: anc) l
      validateExpr (.ofExpr (.or l r) :: anc) r
  | .unaryOp op v => validateExpr (.ofExpr (.unaryOp op v) :: anc) v
  | .call f args => do
      validateExpr (.ofExpr (.call f args) :: anc) f
      validateExprList (.ofExpr (.call f args) :: anc) args
  | .getattr o a => validateExpr (.ofExpr (.getattr o a) :: anc) o
  | .setattr o a v => do
      validateExpr (.ofExpr (.setattr o a v) :: anc) o
      validateExpr (.ofExpr (.setattr o a v) :: anc) v
  | .thisE => thisValidate anc
  | .superE _ => superValidate anc
  | .assign n v => validateExpr (.ofExpr (.assign n v) :: anc) v

/-- Validation walk over an expression list. -/
def validateExprList (anc : List PNode) : List Expr → Except LoxErr Unit
  | [] => .ok ()
  | e :: es => do
      validateExpr anc e
      validateExprList anc es

/-- Validation walk over a statement. -/
def validateStmt (anc : List PNode) : Stmt → Except LoxErr Unit
  | .exprS e => validateExpr (.ofStmt (.exprS e) :: anc) e
  | .ret e => do
      returnValidate anc
      validateExpr (.ofStmt (.ret e) :: anc) e
  | .varDef n v => do
      varDefValidate n anc
      validateExpr (.ofStmt (.varDef n v) :: anc) v
  | .ifS cnd t e => do
      validateExpr (.ofStmt (.ifS cnd t e) :: anc) cnd
      validateStmt (.ofStmt (.ifS cnd t e) :: anc) t
      match e with
      | some eb => validateStmt (.ofStmt (.ifS cnd t e) :: anc) eb
      | none => .ok ()
  | .whileS cnd b => do
      validateExpr (.ofStmt (.whileS cnd b) :: anc) cnd
      validateStmt (.ofStmt (.whileS cnd b) :: anc) b
  | .block ss => do
      blockValidate ss
      validateStmtList (.ofStmt (.block ss) :: anc) ss
  | .function n p b => do
      functionValidate p b
      validateStmt (.ofStmt (.function n p b) :: anc) b
  | .classS n sup ms => do
      (match sup with
       | some se => validateExpr (.ofStmt (.classS n sup ms) :: anc) se
       | none => .ok ())
      validateStmtList (.ofStmt (.classS n sup ms) :: anc) ms
  | .print e => validateExpr (.ofStmt (.print e) :: anc) e

/-- Validation walk over a statement list. -/
def validateStmtList (anc : List PNode) : List Stmt → Except LoxErr Unit
  | [] => .ok ()
  | st :: rest => do
      validateStmt anc st
      validateStmtList anc rest
end

/-- Validation of a whole program: every node checked, ancestors ending at
the root.  Modelled from the spec (§4.5: the pass runs before any
statement executes). -/
def validateProgram (p : Program) : Except LoxErr Unit :=
  validateStmtList [PNode.root] p.stmts

/-- A fresh interpreter state: one global frame with no parent, no
instances, no output. -/
def initState : State :=
  { envs := [⟨[], none⟩], insts := [], output := [] }

/-- `isinstance(v, float)`. -/
def Value.isNumV : Value → Bool
  | .num _ => true
  | _ => false

/-- `isinstance(v, str)`. -/
def Value.isStrV : Value → Bool
  | .str _ => true
  | _ => false

/-- The program `class A { init() { return 1; } }`: a method named `init`
whose body returns a value. -/
def initReturnsValueProgram : Program :=
  ⟨[.classS "A" none
      [.function "init" [] (.block [.ret (.literal (.num (.fin 1)))])]]⟩

/-- The program `class A { init() { return; } }`: a bare return inside
`init` (the parser supplies `Literal(None)` for the omitted expression). -/
def initBareReturnProgram : Program :=
  ⟨[.classS "A" none
      [.function "init" [] (.block [.ret (.literal .nil)])]]⟩

/-- A class `A` with a method `m` and no base. -/
def c5Class : LoxClass :=
  .mk "A" [("m", ⟨"m", [], [], 0, false⟩)] none

/-- A class `B` with no methods and no base. -/
def c5ClassB : LoxClass :=
  .mk "B" [] none

/-- A store with a global frame binding `o` to instance 0 — an `A` instance
carrying a field `f` — and instance 1, a fieldless `B` instance. -/
def c5State : State :=
  { envs := [⟨[("o", .inst 0)], none⟩]
    insts := [⟨c5Class, [("f", .str "v")]⟩, ⟨c5ClassB, []⟩]
    output := [] }

/-- An unbound function named `init` with no parameters and empty body. -/
def c10Fun : LoxFunction :=
  ⟨"init", [], [], 0, false⟩

/-!
## Theorems
-/

/-- C6: `lox_add` returns the numeric sum when both operands are Numbers,
the concatenation when both are Strings, and fails with
`Operands must be two numbers or two strings.` in every other case
(including one Number and one String). -/
theorem c6_lox_add_dispatch :
    (∀ a b : Num, lox_add (.num a) (.num b) = .ok (.num (a.add b)))
  ∧ (∀ s t : String, lox_add (.str s) (.str t) = .ok (.str (s ++ t)))
  ∧ (∀ v w : Value, (v.isNumV && w.isNumV) = false →
      (v.isStrV && w.isStrV) = false →
      lox_add v w =
        .error (.loxError "Operands must be two numbers or two strings.")) := by
  refine ⟨fun a b => rfl, fun s t => rfl, ?_⟩
  intro v w h1 h2
  cases v <;> cases w <;> simp_all [lox_add, Value.isNumV, Value.isStrV]

/-- Witness for C6: `true + 0` takes the error branch. -/
theorem c6_lox_add_dispatch_witness :
    ((Value.bool true).isNumV && (Value.num (.fin 0)).isNumV) = false
  ∧ ((Value.bool true).isStrV && (Value.num (.fin 0)).isStrV) = false
  ∧ lox_add (.bool true) (.num (.fin 0)) =
      .error (.loxError "Operands must be two numbers or two strings.") :=
  ⟨rfl, rfl, c6_lox_add_dispatch.2.2 _ _ rfl rfl⟩

/-- C7: `lox_div` fails with `Operands must be numbers.` when either
operand is not a Number, fails with `Division by zero.` when both are
Numbers and the divisor compares IEEE-equal to 0, and otherwise returns
the quotient. -/
theorem c7_lox_div_dispatch :
    (∀ v w : Value, (v.isNumV && w.isNumV) = false →
        lox_div v w = .error (.loxError "Operands must be numbers."))
  ∧ (∀ a b : Num, b.ieeeEq (.fin 0) = true →
        lox_div (.num a) (.num b) = .error (.loxError "Division by zero."))
  ∧ (∀ a b : Num, b.ieeeEq (.fin 0) = false →
        lox_div (.num a) (.num b) = .ok (.num (a.div b))) := by
  refine ⟨?_, ?_, ?_⟩
  · intro v w h
    cases v <;> cases w <;> simp_all [lox_div, Value.isNumV]
  · intro a b h
    simp [lox_div, h]
  · intro a b h
    simp [lox_div, h]

/-- Witness for C7: `1 / 0` raises the division error, and a non-number
operand raises the type error. -/
theorem c7_lox_div_dispatch_witness :
    (Num.fin 0).ieeeEq (.fin 0) = true
  ∧ lox_div (.num (.fin 1)) (.num (.fin 0)) =
      .error (.loxError "Division by zero.")
  ∧ ((Value.str "x").isNumV && (Value.num (.fin 1)).isNumV) = false
  ∧ lox_div (.str "x") (.num (.fin 1)) =
      .error (.loxError "Operands must be numbers.") :=
  ⟨rfl, c7_lox_div_dispatch.2.1 _ _ rfl, rfl, c7_lox_div_dispatch.1 _ _ rfl⟩

/-- C8: `lox_eq` is total (it returns a `Bool`, mirroring that Python `==`
raises nothing on these operands), returns `false` whenever the operands
are of different runtime types, and compares Numbers by IEEE equality:
`NaN == NaN` is false while `n == n` is true for every non-NaN number. -/
theorem c8_lox_eq_strict :
    (∀ v w : Value, v.sameType w = false → lox_eq v w = false)
  ∧ lox_eq (.num .nan) (.num .nan) = false
  ∧ (∀ q : ℚ, lox_eq (.num (.fin q)) (.num (.fin q)) = true) := by
  refine ⟨?_, rfl, ?_⟩
  · intro v w h
    simp [lox_eq, h]
  · intro q
    simp [lox_eq, Value.sameType, pyEqSame, Num.ieeeEq]

/-- Witness for C8: a Bool is never equal to a Number. -/
theorem c8_lox_eq_strict_witness :
    (Value.bool true).sameType (.num .nan) = false
  ∧ lox_eq (.bool true) (.num .nan) = false :=
  ⟨rfl, c8_lox_eq_strict.1 _ _ rfl⟩

/-- C9: `a and b` evaluates the left operand and, when it is falsy,
returns that left value with the right operand never evaluated (the result
does not depend on the right operand at all); when the left is truthy the
result is the evaluation of the right operand.  `a or b` mirrors this with
the roles of truthy and falsy swapped. -/
theorem c9_logical_short_circuit :
    (∀ (fuel : Nat) (l r r' : Expr) (c : Nat) (s : State) (v : Value)
        (s' : State),
        evalExpr fuel l c s = .ok v s' → truthy v = false →
        evalExpr (fuel + 1) (.and l r) c s = .ok v s'
      ∧ evalExpr (fuel + 1) (.and l r) c s = evalExpr (fuel + 1) (.and l r') c s)
  ∧ (∀ (fuel : Nat) (l r : Expr) (c : Nat) (s : State) (v : Value)
        (s' : State),
        evalExpr fuel l c s = .ok v s' → truthy v = true →
        evalExpr (fuel + 1) (.and l r) c s = evalExpr fuel r c s')
  ∧ (∀ (fuel : Nat) (l r r' : Expr) (c : Nat) (s : State) (v : Value)
        (s' : State),
        evalExpr fuel l c s = .ok v s' → truthy v = true →
        evalExpr (fuel + 1) (.or l r) c s = .ok v s'
      ∧ evalExpr (fuel + 1) (.or l r) c s = evalExpr (fuel + 1) (.or l r') c s)
  ∧ (∀ (fuel : Nat) (l r : Expr) (c : Nat) (s : State) (v : Value)
        (s' : State),
        evalExpr fuel l c s = .ok v s' → truthy v = false →
        evalExpr (fuel + 1) (.or l r) c s = evalExpr fuel r c s') := by
  refine ⟨?_, ?_, ?_, ?_⟩
  · intro fuel l r r' c s v s' h ht
    constructor <;> simp [evalExpr, h, ht]
  · intro fuel l r c s v s' h ht
    simp [evalExpr, h, ht]
  · intro fuel l r r' c s v s' h ht
    constructor <;> simp [evalExpr, h, ht]
  · intro fuel l r c s v s' h ht
    simp [evalExpr, h, ht]

/-- Witness for C9: `false and boom` returns `false` even though `boom`
is an unbound variable whose evaluation would fail. -/
theorem c9_logical_short_circuit_witness :
    evalExpr 1 (.literal (.bool false)) 0 initState =
      .ok (.bool false) initState
  ∧ truthy (.bool false) = false
  ∧ evalExpr 2 (.and (.literal (.bool false)) (.var "boom")) 0 initState =
      .ok (.bool false) initState := by
  refine ⟨by simp [evalExpr, Value.ofLit], rfl, ?_⟩
  exact (c9_logical_short_circuit.1 1 (.literal (.bool false)) (.var "boom")
    (.var "other") 0 initState (.bool false) initState
    (by simp [evalExpr, Value.ofLit]) rfl).1

/-- C1: the claim states the While body keeps executing while the
condition is truthy under Lox truthiness, so that a condition of `0` or
`""` keeps the loop running.  `While.eval` instead applies the host
language's truth test (`while self.cond.eval(ctx):`), under which `0` and
`""` are falsy: both loops below exit at once with the state — including
the printed output — unchanged, although `runtime.truthy` maps both
condition values to `true` (they are truthy per §4.1, which `If.eval`
honours via `truthy`). -/
theorem c1_while_uses_python_truthiness :
    evalStmt 5 (.whileS (.literal (.num (.fin 0)))
        (.print (.literal (.str "x")))) 0 initState = .ok () initState
  ∧ evalStmt 5 (.whileS (.literal (.str ""))
        (.print (.literal (.str "x")))) 0 initState = .ok () initState
  ∧ truthy (.num (.fin 0)) = true
  ∧ truthy (.str "") = true
  ∧ initState.output = [] := by
  refine ⟨?_, ?_, rfl, rfl, rfl⟩ <;>
    simp [evalStmt, evalExpr, Value.ofLit, pyTruthy, Num.ieeeEq]

/-- C2 counterexample: evaluating the Set expression `(1).x = nil`, whose
object value is the number 1 (not an Instance), does not fail with
`Only instances have fields.` — it raises the host `AttributeError`. -/
theorem c2_setattr_counterexample :
    evalExpr 3 (.setattr (.literal (.num (.fin 1))) "x" (.literal .nil))
        0 initState
      = .err (.attributeErr (pyNoAttrMsg "float" "x")) initState
  ∧ LoxErr.attributeErr (pyNoAttrMsg "float" "x") ≠
      .loxError "Only instances have fields." := by
  constructor
  · simp [evalExpr, Value.ofLit, setattrDispatch]
  · decide

/-- C2 (amended): evaluating a Set expression whose object value is not an
Instance never produces `Only instances have fields.`: `Setattr.eval` falls
back to host `setattr`, which raises `AttributeError` for nil, booleans,
numbers and strings and silently succeeds for functions and classes (the
attribute lands on the host object only); an Instance gets the field
write.  The final two conjuncts propagate the dispatch through
`Setattr.eval`. -/
theorem c2_setattr_non_instance :
    (∀ (attr : String) (v : Value) (s : State),
        setattrDispatch .nil attr v s =
          .err (.attributeErr (pyNoAttrMsg "NoneType" attr)) s)
  ∧ (∀ (b : Bool) (attr : String) (v : Value) (s : State),
        setattrDispatch (.bool b) attr v s =
          .err (.attributeErr (pyNoAttrMsg "bool" attr)) s)
  ∧ (∀ (n : Num) (attr : String) (v : Value) (s : State),
        setattrDispatch (.num n) attr v s =
          .err (.attributeErr (pyNoAttrMsg "float" attr)) s)
  ∧ (∀ (t attr : String) (v : Value) (s : State),
        setattrDispatch (.str t) attr v s =
          .err (.attributeErr (pyNoAttrMsg "str" attr)) s)
  ∧ (∀ (f : LoxFunction) (attr : String) (v : Value) (s : State),
        setattrDispatch (.fn f) attr v s = .ok () s)
  ∧ (∀ (k : LoxClass) (attr : String) (v : Value) (s : State),
        setattrDispatch (.cls k) attr v s = .ok () s)
  ∧ (∀ (r : Nat) (attr : String) (v : Value) (s : State),
        setattrDispatch (.inst r) attr v s = .ok () (s.setField r attr v))
  ∧ (∀ (fuel : Nat) (obj vexp : Expr) (attr : String) (c : Nat) (s : State)
        (ov : Value) (s1 : State) (vv : Value) (s2 : State) (er : LoxErr)
        (s3 : State),
        evalExpr fuel obj c s = .ok ov s1 →
        evalExpr fuel vexp c s1 = .ok vv s2 →
        setattrDispatch ov attr vv s2 = .err er s3 →
        evalExpr (fuel + 1) (.setattr obj attr vexp) c s = .err er s3)
  ∧ (∀ (fuel : Nat) (obj vexp : Expr) (attr : String) (c : Nat) (s : State)
        (ov : Value) (s1 : State) (vv : Value) (s2 s3 : State),
        evalExpr fuel obj c s = .ok ov s1 →
        evalExpr fuel vexp c s1 = .ok vv s2 →
        setattrDispatch ov attr vv s2 = .ok () s3 →
        evalExpr (fuel + 1) (.setattr obj attr vexp) c s = .ok vv s3) := by
  refine ⟨fun _ _ _ => rfl, fun _ _ _ _ => rfl, fun _ _ _ _ => rfl,
    fun _ _ _ _ => rfl, fun _ _ _ _ => rfl, fun _ _ _ _ => rfl,
    fun _ _ _ _ => rfl, ?_, ?_⟩
  · intro fuel obj vexp attr c s ov s1 vv s2 er s3 h1 h2 h3
    simp [evalExpr, h1, h2, h3]
  · intro fuel obj vexp attr c s ov s1 vv s2 s3 h1 h2 h3
    simp [evalExpr, h1, h2, h3]

/-- Witness for C2 at `(1).x = nil`. -/
theorem c2_setattr_non_instance_witness :
    evalExpr 1 (.literal (.num (.fin 1))) 0 initState =
      .ok (.num (.fin 1)) initState
  ∧ evalExpr 1 (.literal .nil) 0 initState = .ok .nil initState
  ∧ setattrDispatch (.num (.fin 1)) "x" .nil initState =
      .err (.attributeErr (pyNoAttrMsg "float" "x")) initState
  ∧ evalExpr 2 (.setattr (.literal (.num (.fin 1))) "x" (.literal .nil))
        0 initState
      = .err (.attributeErr (pyNoAttrMsg "float" "x")) initState := by
  refine ⟨by simp [evalExpr, Value.ofLit], by simp [evalExpr, Value.ofLit],
    rfl, ?_⟩
  exact c2_setattr_non_instance.2.2.2.2.2.2.2.1 1 (.literal (.num (.fin 1)))
    (.literal .nil) "x" 0 initState (.num (.fin 1)) initState .nil initState
    (.attributeErr (pyNoAttrMsg "float" "x")) initState
    (by simp [evalExpr, Value.ofLit]) (by simp [evalExpr, Value.ofLit]) rfl

/-- C3 counterexample: the program `class A { init() { return 1; } }` —
a `return <value>;` inside a method named `init` — passes semantic
validation; it is not rejected with the claimed `SemanticError`. -/
theorem c3_validation_counterexample :
    validateProgram initReturnsValueProgram = .ok ()
  ∧ validateProgram initReturnsValueProgram ≠
      .error (.semanticErr "cannot return a value from an initializer") := by
  have h : validateProgram initReturnsValueProgram = .ok () := by
    simp [validateProgram, initReturnsValueProgram, validateStmtList,
      validateStmt, validateExpr, returnValidate, functionValidate,
      blockValidate, varDefValidate, hasDup, varDefNames, bodyStmts,
      PNode.isFunction, Bind.bind, Except.bind, Pure.pure, Except.pure]
  exact ⟨h, by simp [h]⟩

/-- C3 (amended): `Return.validate_self` accepts every return statement
with a `Function` node among its ancestors — nothing inspects the returned
expression or an enclosing `init` method — so `return <value>;` inside an
`init` method passes pre-execution validation exactly as a bare `return;`
does. -/
theorem c3_return_validation_in_functions :
    (∀ parents : List PNode, parents.any PNode.isFunction = true →
        returnValidate parents = .ok ())
  ∧ validateProgram initReturnsValueProgram = .ok ()
  ∧ validateProgram initBareReturnProgram = .ok () := by
  refine ⟨?_, ?_, ?_⟩
  · intro parents h
    induction parents with
    | nil => cases h
    | cons p rest ih =>
        by_cases hp : p.isFunction = true
        · simp [returnValidate, hp]
        · have hb : p.isFunction = false := by simpa using hp
          have hr : rest.any PNode.isFunction = true := by
            simpa [List.any_cons, hb] using h
          simp [returnValidate, hb, ih hr]
  · simp [validateProgram, initReturnsValueProgram, validateStmtList,
      validateStmt, validateExpr, returnValidate, functionValidate,
      blockValidate, varDefValidate, hasDup, varDefNames, bodyStmts,
      PNode.isFunction, Bind.bind, Except.bind, Pure.pure, Except.pure]
  · simp [validateProgram, initBareReturnProgram, validateStmtList,
      validateStmt, validateExpr, returnValidate, functionValidate,
      blockValidate, varDefValidate, hasDup, varDefNames, bodyStmts,
      PNode.isFunction, Bind.bind, Except.bind, Pure.pure, Except.pure]

/-- Witness for C3: a return statement directly inside a function node. -/
theorem c3_return_validation_in_functions_witness :
    ([PNode.ofStmt (.function "f" [] (.block []))].any PNode.isFunction
      = true)
  ∧ returnValidate [PNode.ofStmt (.function "f" [] (.block []))] = .ok () :=
  ⟨rfl, c3_return_validation_in_functions.1 _ rfl⟩

/-- C4: invoking a `LoxFunction` with an argument count different from its
declared parameter count fails before the body runs — the strict
parameter/argument zip raises the arity error recorded with the expected
and received counts — and calling a `LoxClass` with no `init` method
anywhere in its hierarchy with a non-empty argument list fails with
`Expected 0 arguments but got N.` (the instance is allocated first, as in
the source). -/
theorem c4_arity_mismatch :
    (∀ (fuel : Nat) (f : LoxFunction) (args : List Value) (s : State),
        f.args.length ≠ args.length →
        callFunction (fuel + 1) f args s =
          .err (.valueErr f.args.length args.length) s)
  ∧ (∀ (fuel : Nat) (k : LoxClass) (args : List Value) (s : State),
        k.get_method "init" = none → args ≠ [] →
        callClass (fuel + 1) k args s =
          .err (.runtimeErr ("Expected 0 arguments but got " ++
            toString args.length ++ ".")) (s.newInstance k).2) := by
  constructor
  · intro fuel f args s h
    simp [callFunction, h]
  · intro fuel k args s hinit hne
    have hlen : args.length ≠ 0 := fun hl => hne (List.length_eq_zero.mp hl)
    simp [callClass, hinit, hlen]

/-- Witness for C4: a one-parameter function called with no arguments, and
an `init`-less class called with one argument. -/
theorem c4_arity_mismatch_witness :
    (LoxFunction.mk "f" ["a"] [] 0 false).args.length ≠
      ([] : List Value).length
  ∧ callFunction 1 (LoxFunction.mk "f" ["a"] [] 0 false) [] initState =
      .err (.valueErr 1 0) initState
  ∧ c5ClassB.get_method "init" = none
  ∧ ([Value.nil] ≠ [])
  ∧ callClass 1 c5ClassB [.nil] initState =
      .err (.runtimeErr "Expected 0 arguments but got 1.")
        (initState.newInstance c5ClassB).2 := by
  have hg : c5ClassB.get_method "init" = none := by
    simp [c5ClassB, LoxClass.get_method, alookup]
  refine ⟨by decide, c4_arity_mismatch.1 0 _ _ _ (by decide), hg,
    by simp, ?_⟩
  exact c4_arity_mismatch.2 0 c5ClassB [.nil] initState hg (by simp)

/-- C5: property access on an Instance: a stored field of the requested
name wins; otherwise the class's `get_method` — which searches the class's
own dict and then its base chain — supplies the method, returned bound to
the instance; otherwise the access fails with the `AttributeError` naming
the class and attribute.  The last conjunct: `Getattr.eval` routes
instance objects into `LoxInstance.get`. -/
theorem c5_instance_get :
    (∀ (s : State) (r : Nat) (d : InstData) (name : String) (v : Value),
        s.getInst r = some d → alookup d.fields name = some v →
        instGet s r name = .ok v s)
  ∧ (∀ (s : State) (r : Nat) (d : InstData) (name : String)
        (m : LoxFunction),
        s.getInst r = some d → alookup d.fields name = none →
        d.klass.get_method name = some m →
        instGet s r name =
          .ok (.fn (m.bind (.inst r) s).1) (m.bind (.inst r) s).2)
  ∧ (∀ (s : State) (r : Nat) (d : InstData) (name : String),
        s.getInst r = some d → alookup d.fields name = none →
        d.klass.get_method name = none →
        instGet s r name = .err (.attributeErr ("\x27" ++ d.klass.name ++
          "\x27 instance has no attribute \x27" ++ name ++ "\x27")) s)
  ∧ (∀ (k : LoxClass) (name : String) (m : LoxFunction),
        alookup k.methods name.trim = some m → k.get_method name = some m)
  ∧ (∀ (k : LoxClass) (name : String),
        alookup k.methods name.trim = none →
        k.get_method name =
          (match k.base with
           | some b => b.get_method name.trim
           | none => none))
  ∧ (∀ (fuel : Nat) (obj : Expr) (attr : String) (c : Nat) (s : State)
        (r : Nat) (s' : State),
        evalExpr fuel obj c s = .ok (.inst r) s' →
        evalExpr (fuel + 1) (.getattr obj attr) c s =
          instGet s' r attr) := by
  refine ⟨?_, ?_, ?_, ?_, ?_, ?_⟩
  · intro s r d name v h1 h2
    simp [instGet, h1, h2]
  · intro s r d name m h1 h2 h3
    simp [instGet, h1, h2, h3]
  · intro s r d name h1 h2 h3
    simp [instGet, h1, h2, h3]
  · intro k name m h
    cases k with
    | mk n ms b =>
        have h' : alookup ms name.trim = some m := h
        cases b <;> simp [LoxClass.get_method, h']
  · intro k name h
    cases k with
    | mk n ms b =>
        have h' : alookup ms name.trim = none := h
        cases b <;> simp [LoxClass.get_method, LoxClass.base, h']
  · intro fuel obj attr c s r s' h
    simp [evalExpr, h, getattrDispatch]

/-- Witness for C5: on the store `c5State`, the field `f` of instance 0 is
returned from the field map; the absent name `g` on the methodless
instance 1 raises the `AttributeError`; `Getattr.eval` of `o.f` reaches
`LoxInstance.get`. -/
theorem c5_instance_get_witness :
    c5State.getInst 0 = some ⟨c5Class, [("f", .str "v")]⟩
  ∧ alookup [("f", Value.str "v")] "f" = some (.str "v")
  ∧ instGet c5State 0 "f" = .ok (.str "v") c5State
  ∧ c5State.getInst 1 = some ⟨c5ClassB, []⟩
  ∧ c5ClassB.get_method "g" = none
  ∧ instGet c5State 1 "g" =
      .err (.attributeErr
        "\x27B\x27 instance has no attribute \x27g\x27") c5State
  ∧ evalExpr 1 (.var "o") 0 c5State = .ok (.inst 0) c5State
  ∧ evalExpr 2 (.getattr (.var "o") "f") 0 c5State =
      instGet c5State 0 "f" := by
  have h0 : c5State.getInst 0 = some ⟨c5Class, [("f", .str "v")]⟩ := rfl
  have h1 : c5State.getInst 1 = some ⟨c5ClassB, []⟩ := rfl
  have hg : c5ClassB.get_method "g" = none := by
    simp [c5ClassB, LoxClass.get_method, alookup]
  have hv : evalExpr 1 (.var "o") 0 c5State = .ok (.inst 0) c5State := by
    simp [evalExpr, ctxGet, c5State, chainLookup, alookup]
  refine ⟨h0, rfl, c5_instance_get.1 _ _ _ _ _ h0 rfl, h1, hg, ?_, hv, ?_⟩
  · have := c5_instance_get.2.2.1 c5State 1 ⟨c5ClassB, []⟩ "g" h1 rfl
      (by simpa [c5ClassB] using hg)
    simpa [c5ClassB, LoxClass.name] using this
  · exact c5_instance_get.2.2.2.2.2 1 (.var "o") "f" 0 c5State 0 c5State hv

/-- C10: the initializer special case of `LoxFunction.__call__` fires only
for a function named exactly `init` that was produced by `bind` and has
`this` in its call context chain.  An unbound function named `init`
behaves as an ordinary function — a call returns its `Return` value, or
nil when the body finishes without returning — while a bound `init` with
`this` in scope returns the `this` binding instead of the return value. -/
theorem c10_init_only_when_bound :
    (∀ (fuel : Nat) (f : LoxFunction) (args : List Value) (s : State)
        (v : Value) (s2 : State),
        f.is_bound_method = false →
        f.args.length = args.length →
        evalStmtList fuel f.body
            (s.pushEnv (paramEnv f.args args) (some f.ctx)).1
            (s.pushEnv (paramEnv f.args args) (some f.ctx)).2 = .ret v s2 →
        callFunction (fuel + 1) f args s = .ok v s2)
  ∧ (∀ (fuel : Nat) (f : LoxFunction) (args : List Value) (s : State)
        (s2 : State),
        f.is_bound_method = false →
        f.args.length = args.length →
        evalStmtList fuel f.body
            (s.pushEnv (paramEnv f.args args) (some f.ctx)).1
            (s.pushEnv (paramEnv f.args args) (some f.ctx)).2 = .ok () s2 →
        callFunction (fuel + 1) f args s = .ok .nil s2)
  ∧ (∀ (fuel : Nat) (f : LoxFunction) (args : List Value) (s : State)
        (v : Value) (s2 : State) (tv : Value),
        f.name = "init" → f.is_bound_method = true →
        ctxContains (s.pushEnv (paramEnv f.args args) (some f.ctx)).2
          (s.pushEnv (paramEnv f.args args) (some f.ctx)).1 "this" = true →
        f.args.length = args.length →
        evalStmtList fuel f.body
            (s.pushEnv (paramEnv f.args args) (some f.ctx)).1
            (s.pushEnv (paramEnv f.args args) (some f.ctx)).2 = .ret v s2 →
        ctxGet s2 (s.pushEnv (paramEnv f.args args) (some f.ctx)).1 "this" =
          some tv →
        callFunction (fuel + 1) f args s = .ok tv s2) := by
  refine ⟨?_, ?_, ?_⟩
  · intro fuel f args s v s2 hb hl hrun
    simp [callFunction, hl, isInitCall, hb, hrun]
  · intro fuel f args s s2 hb hl hrun
    simp [callFunction, hl, isInitCall, hb, hrun]
  · intro fuel f args s v s2 tv hn hb hthis hl hrun hget
    simp [callFunction, hl, isInitCall, hn, hb, hthis, hrun, hget]

/-- Witness for C10: calling the unbound `init`-named function `c10Fun`
with no arguments returns nil (no initializer special case). -/
theorem c10_init_only_when_bound_witness :
    c10Fun.is_bound_method = false
  ∧ c10Fun.args.length = ([] : List Value).length
  ∧ evalStmtList 1 c10Fun.body
        (initState.pushEnv (paramEnv c10Fun.args []) (some c10Fun.ctx)).1
        (initState.pushEnv (paramEnv c10Fun.args []) (some c10Fun.ctx)).2 =
      .ok ()
        (initState.pushEnv (paramEnv c10Fun.args []) (some c10Fun.ctx)).2
  ∧ callFunction 2 c10Fun [] initState =
      .ok .nil
        (initState.pushEnv (paramEnv c10Fun.args []) (some c10Fun.ctx)).2 := by
  have hrun : evalStmtList 1 c10Fun.body
      (initState.pushEnv (paramEnv c10Fun.args []) (some c10Fun.ctx)).1
      (initState.pushEnv (paramEnv c10Fun.args []) (some c10Fun.ctx)).2 =
      .ok ()
        (initState.pushEnv (paramEnv c10Fun.args []) (some c10Fun.ctx)).2 := by
    simp [c10Fun, evalStmtList]
  exact ⟨rfl, rfl, hrun,
    c10_init_only_when_bound.2.1 1 c10Fun [] initState _ rfl rfl hrun⟩

end LoxSpec

